import Mathlib

/-!
# FlyNet metrics engine — formal model

A shallow embedding of the FlyNet simulator's measurement layer:

* `Metrics` mirrors the state set up by `Metrics.__init__`
  (`src/simulator/metrics.py`); Python floats are modelled as `ℚ`,
  Python `int` as `ℤ`, sets as duplicate-free lists, insertion-ordered
  dicts as association lists.
* `Metrics.print_metrics` mirrors `print_metrics`: the eager re-append
  of the `*_dict` values into the display lists, `np.mean` (which yields
  `NaN`, modelled by `NpFloat.nan`, on an empty list), and the two
  unguarded divisions (`ZeroDivisionError` modelled as `Except.error`).
* `Metrics.count` / `Metrics.value` mirror the attribute-existence
  dispatch (`hasattr`/`getattr`/`setattr`) over the class's attribute
  table (`metricAttr?`) with fallback to the `_dynamic` counter dict.
* `Metrics.plot_basic_stats` mirrors the chart exporter as a trace of
  filesystem effects.
* `sample_packet_attributes` mirrors `src/utils/distributions.py`, the
  random draws being passed in as oracle inputs together with the
  range contracts of the library samplers.
* `buildNodes` mirrors the node-construction loop of
  `Simulator.__init__` (`src/simulator/simulator.py`) with its carried
  `sensor_drone_flag`.
-/

namespace FlyNet

/-- Lookup in an insertion-ordered association list (Python `dict.get`). -/
def lookupD (xs : List (String × ℤ)) (k : String) (d : ℤ) : ℤ :=
  match xs.lookup k with
  | some v => v
  | none => d

/-- Write a key in an insertion-ordered association list: update in place if
present, append at the end otherwise (Python `dict.__setitem__`). -/
def setAssoc : List (String × ℤ) → String → ℤ → List (String × ℤ)
  | [], k, v => [(k, v)]
  | (k', v') :: rest, k, v =>
      if k' = k then (k, v) :: rest else (k', v') :: setAssoc rest k v

/-- Same as `setAssoc`, for dicts keyed by packet id. -/
def setAssocN : List (ℕ × ℚ) → ℕ → ℚ → List (ℕ × ℚ)
  | [], k, v => [(k, v)]
  | (k', v') :: rest, k, v =>
      if k' = k then (k, v) :: rest else (k', v') :: setAssocN rest k v

/-- `defaultdict(int)`-style increment of a string-keyed count. -/
def bumpStr : List (String × ℕ) → String → List (String × ℕ)
  | [], k => [(k, 1)]
  | (k', v') :: rest, k =>
      if k' = k then (k, v' + 1) :: rest else (k', v') :: bumpStr rest k

/-- `defaultdict(int)`-style increment of a nat-keyed count. -/
def bumpNat : List (ℕ × ℕ) → ℕ → List (ℕ × ℕ)
  | [], k => [(k, 1)]
  | (k', v') :: rest, k =>
      if k' = k then (k, v' + 1) :: rest else (k', v') :: bumpNat rest k

/-- `defaultdict(list)`-style append for `delay_by_priority`. -/
def appendAt : List (ℕ × List ℚ) → ℕ → ℚ → List (ℕ × List ℚ)
  | [], k, v => [(k, [v])]
  | (k', vs) :: rest, k, v =>
      if k' = k then (k, vs ++ [v]) :: rest else (k', vs) :: appendAt rest k v

/-- Python `set.add`: insert if absent. -/
def insertSet (xs : List ℕ) (x : ℕ) : List ℕ :=
  if x ∈ xs then xs else xs ++ [x]

/-- A `numpy` floating result: either a number or the silent `NaN` that
`np.mean` returns on an empty array. -/
inductive NpFloat where
  | nan : NpFloat
  | val : ℚ → NpFloat
  deriving Repr, DecidableEq

/-- `np.mean`: `NaN` on an empty list, the arithmetic mean otherwise. -/
def npMean (xs : List ℚ) : NpFloat :=
  if xs.isEmpty then NpFloat.nan else NpFloat.val (xs.sum / (xs.length : ℚ))

/-- Division of a numpy scalar by a nonzero constant (`/ 1e3`): `NaN` stays `NaN`. -/
def NpFloat.divConst : NpFloat → ℚ → NpFloat
  | NpFloat.nan, _ => NpFloat.nan
  | NpFloat.val q, c => NpFloat.val (q / c)

/-- Python runtime errors raised by the modelled code. -/
inductive PyErr where
  | zeroDivision : PyErr
  | typeError : PyErr
  deriving Repr, DecidableEq

/-- State of a `Metrics` object, exactly the fields bound in
`Metrics.__init__` (the `simulator` back-reference carries no data used by
the engine and is represented only in the attribute table `metricAttr?`;
the Python field `_dynamic` is the field `dynamic` here). -/
structure Metrics where
  control_packet_num : ℤ
  datapacket_generated : List ℕ
  datapacket_arrived : List ℕ
  datapacket_generated_num : ℤ
  delivery_time : List ℚ
  deliver_time_dict : List (ℕ × ℚ)
  throughput : List ℚ
  throughput_dict : List (ℕ × ℚ)
  hop_cnt : List ℚ
  hop_cnt_dict : List (ℕ × ℚ)
  mac_delay : List ℚ
  collision_num : ℤ
  packet_sizes : List ℚ
  packet_type_counts : List (String × ℕ)
  packet_priority_counts : List (ℕ × ℕ)
  uav_capacities : List ℚ
  dynamic : List (String × ℤ)
  queue_length_log : List (ℕ × ℚ × ℕ)
  delay_by_priority : List (ℕ × List ℚ)
  deriving Repr, DecidableEq

/-- The freshly initialised state built by `Metrics.__init__`. -/
def Metrics.init : Metrics where
  control_packet_num := 0
  datapacket_generated := []
  datapacket_arrived := []
  datapacket_generated_num := 0
  delivery_time := []
  deliver_time_dict := []
  throughput := []
  throughput_dict := []
  hop_cnt := []
  hop_cnt_dict := []
  mac_delay := []
  collision_num := 0
  packet_sizes := []
  packet_type_counts := []
  packet_priority_counts := []
  uav_capacities := []
  dynamic := []
  queue_length_log := []
  delay_by_priority := []

/-- The summary values computed by `print_metrics` (the labelled lines it
writes to the results file and the console). -/
structure Summary where
  total_arrived : ℕ
  total_sent : ℤ
  pdr : ℚ
  e2e_delay : NpFloat
  rl : ℚ
  throughput : NpFloat
  hop_cnt : NpFloat
  collision_num : ℤ
  average_mac_delay : NpFloat
  deriving Repr, DecidableEq

/-- `Metrics.print_metrics`: first the three `for key in ..._dict` loops
re-append every dict value onto the display lists (mutating the stored
state), then the summary values are computed in source order:
`np.mean` first (silently `NaN` on empty input), then the PDR division
(`ZeroDivisionError` when `datapacket_generated_num == 0`), then the
routing-load division (`ZeroDivisionError` when `datapacket_arrived` is
empty).  Returns the mutated state and the outcome. -/
def Metrics.print_metrics (m : Metrics) : Metrics × Except PyErr Summary :=
  let m' := { m with
    delivery_time := m.delivery_time ++ m.deliver_time_dict.map Prod.snd
    throughput := m.throughput ++ m.throughput_dict.map Prod.snd
    hop_cnt := m.hop_cnt ++ m.hop_cnt_dict.map Prod.snd }
  let e2e_delay := (npMean m'.delivery_time).divConst 1000
  if m.datapacket_generated_num = 0 then
    (m', Except.error PyErr.zeroDivision)
  else
    let pdr := (m.datapacket_arrived.length : ℚ) / (m.datapacket_generated_num : ℚ) * 100
    if m.datapacket_arrived.length = 0 then
      (m', Except.error PyErr.zeroDivision)
    else
      let rl := (m.control_packet_num : ℚ) / (m.datapacket_arrived.length : ℚ)
      (m', Except.ok
        { total_arrived := m.datapacket_arrived.length
          total_sent := m.datapacket_generated_num
          pdr := pdr
          e2e_delay := e2e_delay
          rl := rl
          throughput := (npMean m'.throughput).divConst 1000
          hop_cnt := npMean m'.hop_cnt
          collision_num := m.collision_num
          average_mac_delay := npMean m'.mac_delay })

/-- A Python value held in an attribute of a `Metrics` object (the types
that actually occur among its fields and methods). -/
inductive PyVal where
  | int : ℤ → PyVal
  | ratList : List ℚ → PyVal
  | natSet : List ℕ → PyVal
  | ratDict : List (ℕ × ℚ) → PyVal
  | strCountDict : List (String × ℕ) → PyVal
  | natCountDict : List (ℕ × ℕ) → PyVal
  | intDict : List (String × ℤ) → PyVal
  | queueLog : List (ℕ × ℚ × ℕ) → PyVal
  | prioDict : List (ℕ × List ℚ) → PyVal
  | obj : PyVal
  | method : PyVal
  deriving Repr, DecidableEq

/-- The attribute table of a `Metrics` object: the fields bound in
`__init__` plus the methods defined on the class.  `hasattr(self, key)`
holds exactly when this returns `some`, and `getattr(self, key)` returns
the accessed value.  (Attributes inherited from `object`, i.e. dunder
names, are outside the modelled key space; no claim touches them.) -/
def metricAttr? (key : String) : Option (Metrics → PyVal) :=
  if key = "simulator" then some (fun _ => PyVal.obj)
  else if key = "control_packet_num" then some (fun m => PyVal.int m.control_packet_num)
  else if key = "datapacket_generated" then some (fun m => PyVal.natSet m.datapacket_generated)
  else if key = "datapacket_arrived" then some (fun m => PyVal.natSet m.datapacket_arrived)
  else if key = "datapacket_generated_num" then some (fun m => PyVal.int m.datapacket_generated_num)
  else if key = "delivery_time" then some (fun m => PyVal.ratList m.delivery_time)
  else if key = "deliver_time_dict" then some (fun m => PyVal.ratDict m.deliver_time_dict)
  else if key = "throughput" then some (fun m => PyVal.ratList m.throughput)
  else if key = "throughput_dict" then some (fun m => PyVal.ratDict m.throughput_dict)
  else if key = "hop_cnt" then some (fun m => PyVal.ratList m.hop_cnt)
  else if key = "hop_cnt_dict" then some (fun m => PyVal.ratDict m.hop_cnt_dict)
  else if key = "mac_delay" then some (fun m => PyVal.ratList m.mac_delay)
  else if key = "collision_num" then some (fun m => PyVal.int m.collision_num)
  else if key = "packet_sizes" then some (fun m => PyVal.ratList m.packet_sizes)
  else if key = "packet_type_counts" then some (fun m => PyVal.strCountDict m.packet_type_counts)
  else if key = "packet_priority_counts" then some (fun m => PyVal.natCountDict m.packet_priority_counts)
  else if key = "uav_capacities" then some (fun m => PyVal.ratList m.uav_capacities)
  else if key = "_dynamic" then some (fun m => PyVal.intDict m.dynamic)
  else if key = "queue_length_log" then some (fun m => PyVal.queueLog m.queue_length_log)
  else if key = "delay_by_priority" then some (fun m => PyVal.prioDict m.delay_by_priority)
  else if key = "count" then some (fun _ => PyVal.method)
  else if key = "value" then some (fun _ => PyVal.method)
  else if key = "record_packet_stat" then some (fun _ => PyVal.method)
  else if key = "record_uav_capacity" then some (fun _ => PyVal.method)
  else if key = "record_queue_length" then some (fun _ => PyVal.method)
  else if key = "record_delay" then some (fun _ => PyVal.method)
  else if key = "print_metrics" then some (fun _ => PyVal.method)
  else if key = "plot_basic_stats" then some (fun _ => PyVal.method)
  else none

/-- Python `getattr(self, key) + delta`: succeeds only on an `int`
attribute, raises `TypeError` otherwise. -/
def pyAddInt : PyVal → ℤ → Except PyErr ℤ
  | PyVal.int n, d => Except.ok (n + d)
  | _, _ => Except.error PyErr.typeError

/-- Python `setattr(self, key, v)` for the integer value produced by
`count`: writes the matching integer field back (only the three `int`
fields can reach this point, since `pyAddInt` raised on every other
attribute type). -/
def setattrIntM (m : Metrics) (key : String) (v : ℤ) : Metrics :=
  if key = "control_packet_num" then { m with control_packet_num := v }
  else if key = "datapacket_generated_num" then { m with datapacket_generated_num := v }
  else if key = "collision_num" then { m with collision_num := v }
  else m

/-- `Metrics.count(key, delta)`: if `hasattr(self, key)` the attribute
itself is updated (`getattr + delta`, then `setattr`); otherwise the
ad hoc counter dict `_dynamic[key] += delta`.  Returns the updated state
and the returned value, or the Python error. -/
def Metrics.count (m : Metrics) (key : String) (delta : ℤ) : Except PyErr (Metrics × ℤ) :=
  match metricAttr? key with
  | some f =>
      match pyAddInt (f m) delta with
      | Except.ok n => Except.ok (setattrIntM m key n, n)
      | Except.error e => Except.error e
  | none =>
      let n := lookupD m.dynamic key 0 + delta
      Except.ok ({ m with dynamic := setAssoc m.dynamic key n }, n)

/-- `Metrics.value(key, default)`: the attribute when `hasattr(self, key)`
(whatever its type), otherwise `_dynamic.get(key, default)`. -/
def Metrics.value (m : Metrics) (key : String) (default : ℤ) : PyVal :=
  match metricAttr? key with
  | some f => f m
  | none => PyVal.int (lookupD m.dynamic key default)

/-- A filesystem effect performed by `plot_basic_stats`. -/
inductive FsEffect where
  | mkdir : String → FsEffect
  | savefig : String → FsEffect
  deriving Repr, DecidableEq

/-- `Metrics.plot_basic_stats`, as the trace of filesystem effects it
performs: nothing when `config.ENABLE_STATS` is false; otherwise
`os.makedirs("results")` unconditionally, then one `savefig` per
source dataset that is non-empty (Python dict/list truthiness). -/
def Metrics.plot_basic_stats (enable_stats : Bool) (m : Metrics) : List FsEffect :=
  if !enable_stats then []
  else
    [FsEffect.mkdir "results"]
    ++ (if m.packet_sizes.isEmpty then [] else [FsEffect.savefig "results/packet_size_hist.png"])
    ++ (if m.packet_type_counts.isEmpty then [] else [FsEffect.savefig "results/packet_type_bar.png"])
    ++ (if m.packet_priority_counts.isEmpty then [] else [FsEffect.savefig "results/packet_priority_bar.png"])
    ++ (if m.uav_capacities.isEmpty then [] else [FsEffect.savefig "results/uav_capacity_hist.png"])

/-- `Metrics.record_packet_stat(pkt_type, size_MB, priority)`. -/
def Metrics.record_packet_stat (m : Metrics) (pkt_type : String) (size_MB : ℚ) (priority : ℕ) : Metrics :=
  { m with
    packet_sizes := m.packet_sizes ++ [size_MB]
    packet_type_counts := bumpStr m.packet_type_counts pkt_type
    packet_priority_counts := bumpNat m.packet_priority_counts priority }

/-- `Metrics.record_uav_capacity(node_id, compute_rate)`. -/
def Metrics.record_uav_capacity (m : Metrics) (compute_rate : ℚ) : Metrics :=
  { m with uav_capacities := m.uav_capacities ++ [compute_rate] }

/-- `Metrics.record_queue_length(node_id, timestamp, queue_length)`. -/
def Metrics.record_queue_length (m : Metrics) (node_id : ℕ) (timestamp : ℚ) (queue_length : ℕ) : Metrics :=
  { m with queue_length_log := m.queue_length_log ++ [(node_id, timestamp, queue_length)] }

/-- `Metrics.record_delay(priority, delay)`. -/
def Metrics.record_delay (m : Metrics) (priority : ℕ) (delay : ℚ) : Metrics :=
  { m with delay_by_priority := appendAt m.delay_by_priority priority delay }

/-- Errors of the metrics-event interface (spec §7). -/
inductive MetricsError where
  | duplicateId : MetricsError
  | unknownPacket : MetricsError
  deriving Repr, DecidableEq

/-- Modelled from the spec: `register_generated(packet)` (§4.1) — the
collaborator code that records a generated packet is not under `src/`;
per the spec it "records id into the generated set, increments the
generated counter" and "fails with `DuplicateIdError` if id already
present". -/
def Metrics.register_generated (m : Metrics) (pid : ℕ) : Except MetricsError Metrics :=
  if pid ∈ m.datapacket_generated then Except.error MetricsError.duplicateId
  else Except.ok { m with
    datapacket_generated := insertSet m.datapacket_generated pid
    datapacket_generated_num := m.datapacket_generated_num + 1 }

/-- Modelled from the spec: `register_arrived(packetId, arrivalTime,
hopCount, throughputSample)` (§4.1) — the collaborator code that records
an arrival is not under `src/`; per the spec, "if `packetId` is not in
the generated set, signals `UnknownPacketError` and is a no-op";
otherwise it inserts the id into the delivered set and stores the
delivery fact into the per-packet dicts of the `Metrics` state. -/
def Metrics.register_arrived (m : Metrics) (pid : ℕ) (arrivalTime hopCount throughputSample : ℚ) :
    Metrics × Option MetricsError :=
  if pid ∈ m.datapacket_generated then
    ({ m with
        datapacket_arrived := insertSet m.datapacket_arrived pid
        deliver_time_dict := setAssocN m.deliver_time_dict pid arrivalTime
        hop_cnt_dict := setAssocN m.hop_cnt_dict pid hopCount
        throughput_dict := setAssocN m.throughput_dict pid throughputSample },
      none)
  else (m, some MetricsError.unknownPacket)

/-- Modelled from the spec: `record_control_packet(n=1)` (§4.1),
a "straightforward counter append" not under `src/`. -/
def Metrics.record_control_packet (m : Metrics) (n : ℤ) : Metrics :=
  { m with control_packet_num := m.control_packet_num + n }

/-- Modelled from the spec: `record_collision(n=1)` (§4.1). -/
def Metrics.record_collision (m : Metrics) (n : ℤ) : Metrics :=
  { m with collision_num := m.collision_num + n }

/-- Modelled from the spec: `record_mac_delay(value)` (§4.1). -/
def Metrics.record_mac_delay (m : Metrics) (value : ℚ) : Metrics :=
  { m with mac_delay := m.mac_delay ++ [value] }

/-- One operation of the metrics engine's external interface. -/
inductive Op where
  | registerGenerated : ℕ → Op
  | registerArrived : ℕ → ℚ → ℚ → ℚ → Op
  | recordControlPacket : ℤ → Op
  | recordCollision : ℤ → Op
  | recordMacDelay : ℚ → Op
  | recordPacketStat : String → ℚ → ℕ → Op
  | recordUavCapacity : ℚ → Op
  | recordQueueLength : ℕ → ℚ → ℕ → Op
  | recordDelay : ℕ → ℚ → Op
  | countOp : String → ℤ → Op
  | printMetricsOp : Op

/-- The state reached after one engine operation (operations that raise
leave the state as it was at the raise point; `print_metrics` keeps its
mutated state even when a division raises, as in the source). -/
def applyOp (m : Metrics) : Op → Metrics
  | Op.registerGenerated pid =>
      match m.register_generated pid with
      | Except.ok m' => m'
      | Except.error _ => m
  | Op.registerArrived pid t hop thr => (m.register_arrived pid t hop thr).1
  | Op.recordControlPacket n => m.record_control_packet n
  | Op.recordCollision n => m.record_collision n
  | Op.recordMacDelay v => m.record_mac_delay v
  | Op.recordPacketStat ty sz pr => m.record_packet_stat ty sz pr
  | Op.recordUavCapacity r => m.record_uav_capacity r
  | Op.recordQueueLength node t len => m.record_queue_length node t len
  | Op.recordDelay pr d => m.record_delay pr d
  | Op.countOp key delta =>
      match m.count key delta with
      | Except.ok (m', _) => m'
      | Except.error _ => m
  | Op.printMetricsOp => m.print_metrics.1

/-- The state reached from a fresh `Metrics` object by a sequence of
engine operations. -/
def runOps (ops : List Op) : Metrics :=
  ops.foldl applyOp Metrics.init

/-- The node-construction loop of `Simulator.__init__`
(`src/simulator/simulator.py`): `sensor_drone_flag` starts at `0`
before the loop; at index `i` it is set to `1` when
`n_nodes - i <= 5` (and is never reset), and the node created at `i`
carries the current flag.  `nodeStep` is one loop iteration over the
accumulated (flag list, current flag) state. -/
def nodeStep (n_nodes : ℕ) (acc : List ℕ × ℕ) (i : ℕ) : List ℕ × ℕ :=
  let flag := if n_nodes - i ≤ 5 then 1 else acc.2
  (acc.1 ++ [flag], flag)

/-- The whole construction loop of `Simulator.__init__`: flag list in
creation order together with the final flag. -/
def buildNodes (n_nodes : ℕ) : List ℕ × ℕ :=
  (List.range n_nodes).foldl (nodeStep n_nodes) ([], 0)

/-- The role flag of each created node, in creation order
(`0` = sensor, `1` = drone). -/
def sensor_drone_flags (n_nodes : ℕ) : List ℕ :=
  (buildNodes n_nodes).1

/-- The configuration surface read by `sample_packet_attributes`
(`utils/config`, not under `src/`): the packet-type labels, their
probability weights, and the type→priority map. -/
structure PacketConfig where
  PKT_TYPE_PMF : List String
  PKT_TYPE_PROB : List ℚ
  PRIORITY_MAP : String → ℕ

/-- `sample_packet_attributes()` (`src/utils/distributions.py`), with the
random draws passed in as oracle inputs:
* `idx` — the index drawn by `random.choices(PKT_TYPE_PMF, weights=PKT_TYPE_PROB)`;
* `u` — the result of `random.uniform(0.05, 0.20)` (which lies in `[0.05, 0.20]`);
* `ln` — the result of `np.random.lognormal(mean=log 1, sigma=0.5)` (strictly positive);
* `nv` — the result of `random.normalvariate(6, 1)` (unconstrained).
The video branch clamps `nv` at a floor of `0.001` via `max`. -/
def sample_packet_attributes (cfg : PacketConfig)
    (idx : Fin cfg.PKT_TYPE_PMF.length) (u ln nv : ℚ) : String × ℚ × ℕ :=
  let pkt_type := cfg.PKT_TYPE_PMF.get idx
  let size : ℚ :=
    if pkt_type = "text" then u
    else if pkt_type = "image" then ln
    else max 0.001 nv
  let prio := cfg.PRIORITY_MAP pkt_type
  (pkt_type, size, prio)

/-- A state with one generated, delivered packet, as left by the
collaborators just before the end-of-run report. -/
def c1_state : Metrics :=
  { Metrics.init with
    datapacket_generated := [1]
    datapacket_generated_num := 1
    datapacket_arrived := [1]
    deliver_time_dict := [(1, 2000)] }

/-- A state with two generated packets and one delivery. -/
def c3_state : Metrics :=
  { Metrics.init with
    datapacket_generated := [0, 1]
    datapacket_generated_num := 2
    datapacket_arrived := [0] }

/-- A successful-summary state in which every sample population is empty. -/
def c5_state : Metrics :=
  { Metrics.init with
    datapacket_generated := [0]
    datapacket_generated_num := 1
    datapacket_arrived := [0] }

/-- The configuration of the spec's sampler test: labels
`text`/`image`/`video` with weights `0.5/0.3/0.2` and an arbitrary
type→priority map. -/
def cfg0 : PacketConfig where
  PKT_TYPE_PMF := ["text", "image", "video"]
  PKT_TYPE_PROB := [1/2, 3/10, 1/5]
  PRIORITY_MAP := fun ty => if ty = "video" then 0 else if ty = "image" then 1 else 2

/-- The index of the `text` label in `cfg0`. -/
def cfg0_idx : Fin cfg0.PKT_TYPE_PMF.length := ⟨0, by norm_num [cfg0]⟩

/-- C1: the claim that `print_metrics` is a pure, idempotent read is
violated by the code: on a state holding one delivery fact, the first
call appends the dict value into the stored list `delivery_time`
(`[] ↦ [2000]`), and a second call with no intervening events appends it
again (`[2000] ↦ [2000, 2000]`), so the second call mutates the stored
state rather than leaving it unchanged. -/
theorem print_metrics_mutates_state :
    ((Metrics.print_metrics c1_state).1.delivery_time = [2000])
    ∧ ((Metrics.print_metrics (Metrics.print_metrics c1_state).1).1.delivery_time
        = [2000, 2000])
    ∧ (Metrics.print_metrics (Metrics.print_metrics c1_state).1).1
        ≠ (Metrics.print_metrics c1_state).1 := by
  refine ⟨rfl, rfl, fun h => ?_⟩
  have h2 := congrArg Metrics.delivery_time h
  exact absurd h2 (by decide)

/-- Helper: the summary of `c3_state`, field by field. -/
theorem c3_state_summary :
    (Metrics.print_metrics c3_state).2 =
      Except.ok
        { total_arrived := c3_state.datapacket_arrived.length
          total_sent := c3_state.datapacket_generated_num
          pdr := (c3_state.datapacket_arrived.length : ℚ) /
            (c3_state.datapacket_generated_num : ℚ) * 100
          e2e_delay := NpFloat.nan
          rl := (c3_state.control_packet_num : ℚ) /
            (c3_state.datapacket_arrived.length : ℚ)
          throughput := NpFloat.nan
          hop_cnt := NpFloat.nan
          collision_num := c3_state.collision_num
          average_mac_delay := NpFloat.nan } := rfl

/-- C2: with an empty delivered set, `print_metrics` raises
`ZeroDivisionError` (in the routing-load division, or already in the PDR
division when nothing was generated either) — it does not return an
"undefined" sentinel; whenever the summary does succeed, the routing
load equals `control_packet_num / |datapacket_arrived|`. -/
theorem routing_load_empty_delivered_raises (m : Metrics) :
    (m.datapacket_arrived = [] →
      (Metrics.print_metrics m).2 = Except.error PyErr.zeroDivision)
    ∧ (∀ s, (Metrics.print_metrics m).2 = Except.ok s →
        s.rl = (m.control_packet_num : ℚ) / (m.datapacket_arrived.length : ℚ)) := by
  constructor
  · intro h
    by_cases hg : m.datapacket_generated_num = 0 <;>
      simp [Metrics.print_metrics, h, hg]
  · intro s hs
    by_cases hg : m.datapacket_generated_num = 0
    · simp [Metrics.print_metrics, hg] at hs
    · by_cases ha : m.datapacket_arrived.length = 0
      · simp [Metrics.print_metrics, hg, ha] at hs
      · simp [Metrics.print_metrics, hg, ha] at hs
        subst hs
        rfl

/-- Witness for C2: the fresh state has an empty delivered set and the
summary raises; the two-generated/one-delivered state with no control
packets succeeds with routing load 0. -/
theorem routing_load_empty_delivered_raises_witness :
    (Metrics.print_metrics Metrics.init).2 = Except.error PyErr.zeroDivision
    ∧ ∃ s, (Metrics.print_metrics c3_state).2 = Except.ok s ∧ s.rl = 0 := by
  refine ⟨(routing_load_empty_delivered_raises Metrics.init).1 rfl, ?_⟩
  have hr := (routing_load_empty_delivered_raises c3_state).2 _ c3_state_summary
  refine ⟨_, c3_state_summary, ?_⟩
  rw [hr]
  norm_num [c3_state, Metrics.init]

/-- C3: when `datapacket_generated_num = 0` the summary raises
`ZeroDivisionError` instead of reporting a sentinel; when it succeeds,
the PDR equals `|datapacket_arrived| / datapacket_generated_num * 100`
and lies in `[0, 100]` whenever `|delivered| ≤ |generated|`. -/
theorem pdr_formula_and_range (m : Metrics) :
    (m.datapacket_generated_num = 0 →
      (Metrics.print_metrics m).2 = Except.error PyErr.zeroDivision)
    ∧ (∀ s, (Metrics.print_metrics m).2 = Except.ok s →
        s.pdr = (m.datapacket_arrived.length : ℚ) / (m.datapacket_generated_num : ℚ) * 100
        ∧ ((m.datapacket_arrived.length : ℤ) ≤ m.datapacket_generated_num →
            0 ≤ s.pdr ∧ s.pdr ≤ 100)) := by
  constructor
  · intro h
    simp [Metrics.print_metrics, h]
  · intro s hs
    by_cases hg : m.datapacket_generated_num = 0
    · simp [Metrics.print_metrics, hg] at hs
    · by_cases ha : m.datapacket_arrived.length = 0
      · simp [Metrics.print_metrics, hg, ha] at hs
      · simp [Metrics.print_metrics, hg, ha] at hs
        subst hs
        refine ⟨rfl, fun hle => ?_⟩
        have hlen : 1 ≤ m.datapacket_arrived.length := Nat.one_le_iff_ne_zero.mpr ha
        have hgpos : (0 : ℚ) < (m.datapacket_generated_num : ℚ) := by
          have : (1 : ℤ) ≤ m.datapacket_generated_num :=
            le_trans (by exact_mod_cast hlen) hle
          exact_mod_cast lt_of_lt_of_le one_pos this
        have hleq : (m.datapacket_arrived.length : ℚ) ≤ (m.datapacket_generated_num : ℚ) := by
          exact_mod_cast hle
        constructor
        · positivity
        · calc (m.datapacket_arrived.length : ℚ) / (m.datapacket_generated_num : ℚ) * 100
              ≤ 1 * 100 := by
                have := (div_le_one hgpos).mpr hleq
                nlinarith
            _ = 100 := by norm_num

/-- Witness for C3: a fresh state with one spurious arrival raises on the
PDR division, and the two-generated/one-delivered state reports
`PDR = 50 ∈ [0, 100]`. -/
theorem pdr_formula_and_range_witness :
    (Metrics.print_metrics { Metrics.init with datapacket_arrived := [5] }).2
        = Except.error PyErr.zeroDivision
    ∧ ∃ s, (Metrics.print_metrics c3_state).2 = Except.ok s
        ∧ s.pdr = 50 ∧ 0 ≤ s.pdr ∧ s.pdr ≤ 100 := by
  constructor
  · exact (pdr_formula_and_range _).1 rfl
  · obtain ⟨hp, hb⟩ := (pdr_formula_and_range c3_state).2 _ c3_state_summary
    refine ⟨_, c3_state_summary, ?_, (hb (by decide)).1, (hb (by decide)).2⟩
    rw [hp]
    norm_num [c3_state, Metrics.init]

/-- C5: none of the averaged metrics is guarded for the empty-sample
case: whenever the summary succeeds, an empty sample population makes
the corresponding average the silent `NaN` of `np.mean`, not an
"undefined" sentinel (the `Summary` type has no sentinel at all). -/
theorem empty_mean_yields_nan (m : Metrics) (s : Summary)
    (h : (Metrics.print_metrics m).2 = Except.ok s) :
    (m.delivery_time = [] → m.deliver_time_dict = [] → s.e2e_delay = NpFloat.nan)
    ∧ (m.throughput = [] → m.throughput_dict = [] → s.throughput = NpFloat.nan)
    ∧ (m.hop_cnt = [] → m.hop_cnt_dict = [] → s.hop_cnt = NpFloat.nan)
    ∧ (m.mac_delay = [] → s.average_mac_delay = NpFloat.nan) := by
  by_cases hg : m.datapacket_generated_num = 0
  · simp [Metrics.print_metrics, hg] at h
  · by_cases ha : m.datapacket_arrived.length = 0
    · simp [Metrics.print_metrics, hg, ha] at h
    · simp [Metrics.print_metrics, hg, ha] at h
      subst h
      refine ⟨fun h1 h2 => ?_, fun h1 h2 => ?_, fun h1 h2 => ?_, fun h1 => ?_⟩
      · simp [h1, h2, npMean, NpFloat.divConst]
      · simp [h1, h2, npMean, NpFloat.divConst]
      · simp [h1, h2, npMean]
      · simp [h1, npMean]

/-- Witness for C5: on `c5_state` the summary succeeds and all four
averages are `NaN`. -/
theorem empty_mean_yields_nan_witness :
    ∃ s, (Metrics.print_metrics c5_state).2 = Except.ok s
      ∧ s.e2e_delay = NpFloat.nan ∧ s.throughput = NpFloat.nan
      ∧ s.hop_cnt = NpFloat.nan ∧ s.average_mac_delay = NpFloat.nan := by
  have h : (Metrics.print_metrics c5_state).2 =
      Except.ok
        { total_arrived := c5_state.datapacket_arrived.length
          total_sent := c5_state.datapacket_generated_num
          pdr := (c5_state.datapacket_arrived.length : ℚ) /
            (c5_state.datapacket_generated_num : ℚ) * 100
          e2e_delay := NpFloat.nan
          rl := (c5_state.control_packet_num : ℚ) /
            (c5_state.datapacket_arrived.length : ℚ)
          throughput := NpFloat.nan
          hop_cnt := NpFloat.nan
          collision_num := c5_state.collision_num
          average_mac_delay := NpFloat.nan } := rfl
  obtain ⟨h1, h2, h3, h4⟩ := empty_mean_yields_nan c5_state _ h
  exact ⟨_, h, h1 rfl rfl, h2 rfl rfl, h3 rfl rfl, h4 rfl⟩

/-- C9: for a fresh `Metrics` state and any key that is not an attribute
of the object, `count(key, d1)` then `count(key, d2)` leaves
`value(key) = d1 + d2` (both calls succeeding and returning the running
total), and `value` of a different never-incremented non-attribute key
returns the supplied default. -/
theorem count_adhoc_accumulates (key foo : String) (d1 d2 dflt : ℤ)
    (hkey : metricAttr? key = none) (hfoo : metricAttr? foo = none)
    (hne : foo ≠ key) :
    ∃ m1 m2, Metrics.count Metrics.init key d1 = Except.ok (m1, d1)
      ∧ Metrics.count m1 key d2 = Except.ok (m2, d1 + d2)
      ∧ Metrics.value m2 key 0 = PyVal.int (d1 + d2)
      ∧ Metrics.value m2 foo dflt = PyVal.int dflt := by
  refine ⟨{ Metrics.init with dynamic := [(key, d1)] },
    { Metrics.init with dynamic := [(key, d1 + d2)] }, ?_, ?_, ?_, ?_⟩
  · simp [Metrics.count, hkey, lookupD, setAssoc, Metrics.init]
  · simp [Metrics.count, hkey, lookupD, setAssoc, Metrics.init, List.lookup]
  · simp [Metrics.value, hkey, lookupD, List.lookup]
  · have hb : (foo == key) = false := by simp [hne]
    simp [Metrics.value, hfoo, lookupD, List.lookup, hb]

/-- Witness for C9: `count("retransmits", 3)` then `count("retransmits", 2)`
gives `value("retransmits") == 5`, and `value("foo")` returns 0. -/
theorem count_adhoc_accumulates_witness :
    ∃ m1 m2, Metrics.count Metrics.init "retransmits" 3 = Except.ok (m1, 3)
      ∧ Metrics.count m1 "retransmits" 2 = Except.ok (m2, 5)
      ∧ Metrics.value m2 "retransmits" 0 = PyVal.int 5
      ∧ Metrics.value m2 "foo" 0 = PyVal.int 0 := by
  have h := count_adhoc_accumulates "retransmits" "foo" 3 2 0 rfl rfl (by decide)
  norm_num at h
  obtain ⟨m1, hm1, m2, hm2, hv, hf⟩ := h
  exact ⟨m1, m2, hm1, hm2, hv, hf⟩

/-- C10: `count`/`value` dispatch on attribute existence — for any key
naming an existing attribute, `value` returns that attribute whatever
its type, and `count` attempts `getattr + delta`: it raises `TypeError`
when the attribute is not an integer, and when it is an integer it
updates the attribute in place and leaves the ad hoc counter dict
`_dynamic` untouched, so a pre-existing field always shadows an ad hoc
counter of the same name. -/
theorem count_value_attr_shadow (m : Metrics) (key : String) (f : Metrics → PyVal)
    (h : metricAttr? key = some f) (delta dflt : ℤ) :
    Metrics.value m key dflt = f m
    ∧ ((∀ n, f m ≠ PyVal.int n) → Metrics.count m key delta = Except.error PyErr.typeError)
    ∧ (∀ n, f m = PyVal.int n →
        Metrics.count m key delta = Except.ok (setattrIntM m key (n + delta), n + delta)
        ∧ (setattrIntM m key (n + delta)).dynamic = m.dynamic) := by
  refine ⟨?_, ?_, ?_⟩
  · simp [Metrics.value, h]
  · intro hn
    have hadd : pyAddInt (f m) delta = Except.error PyErr.typeError := by
      rcases hfm : f m <;> first | exact absurd hfm (hn _) | rfl
    simp [Metrics.count, h, hadd]
  · intro n hfm
    refine ⟨by simp [Metrics.count, h, hfm, pyAddInt], ?_⟩
    unfold setattrIntM
    split_ifs <;> rfl

/-- Witness for C10: on a fresh state, `value("delivery_time")` returns
the list attribute itself, `count("delivery_time", 1)` raises
`TypeError`, and `count("collision_num", 4)` updates the existing
counter field. -/
theorem count_value_attr_shadow_witness :
    Metrics.value Metrics.init "delivery_time" 7 = PyVal.ratList []
    ∧ Metrics.count Metrics.init "delivery_time" 1 = Except.error PyErr.typeError
    ∧ Metrics.count Metrics.init "collision_num" 4
        = Except.ok (setattrIntM Metrics.init "collision_num" 4, 4) := by
  have h := count_value_attr_shadow Metrics.init "delivery_time"
    (fun m => PyVal.ratList m.delivery_time) rfl 1 7
  have h2 := count_value_attr_shadow Metrics.init "collision_num"
    (fun m => PyVal.int m.collision_num) rfl 4 0
  refine ⟨h.1, h.2.1 fun n hn => PyVal.noConfusion hn, ?_⟩
  have h3 := (h2.2.2 0 rfl).1
  norm_num at h3
  exact h3

/-- C6: under the library samplers' range contracts (`random.uniform(a,b)`
lies in `[a,b]`; a lognormal draw is strictly positive), every call to
`sample_packet_attributes` returns a type that is one of the configured
labels, a strictly positive size — with text sizes in `[0.05, 0.20]` and
video sizes clamped to `max 0.001 nv`, hence `≥ 0.001` — and a priority
that is exactly the configured type→priority map applied to the
returned type. -/
theorem sample_packet_attributes_contract (cfg : PacketConfig)
    (idx : Fin cfg.PKT_TYPE_PMF.length) (u ln nv : ℚ)
    (hu1 : (0.05 : ℚ) ≤ u) (hu2 : u ≤ (0.20 : ℚ)) (hln : 0 < ln) :
    (sample_packet_attributes cfg idx u ln nv).1 ∈ cfg.PKT_TYPE_PMF
    ∧ 0 < (sample_packet_attributes cfg idx u ln nv).2.1
    ∧ ((sample_packet_attributes cfg idx u ln nv).1 = "text" →
        (0.05 : ℚ) ≤ (sample_packet_attributes cfg idx u ln nv).2.1
        ∧ (sample_packet_attributes cfg idx u ln nv).2.1 ≤ (0.20 : ℚ))
    ∧ ((sample_packet_attributes cfg idx u ln nv).1 = "video" →
        (sample_packet_attributes cfg idx u ln nv).2.1 = max (0.001 : ℚ) nv
        ∧ (0.001 : ℚ) ≤ (sample_packet_attributes cfg idx u ln nv).2.1)
    ∧ (sample_packet_attributes cfg idx u ln nv).2.2
        = cfg.PRIORITY_MAP (sample_packet_attributes cfg idx u ln nv).1 := by
  have hpos1 : (0 : ℚ) < 0.05 := by norm_num
  have hpos2 : (0 : ℚ) < 0.001 := by norm_num
  refine ⟨?_, ?_, ?_, ?_, rfl⟩
  · show cfg.PKT_TYPE_PMF.get idx ∈ cfg.PKT_TYPE_PMF
    exact List.get_mem _ _ idx.isLt
  · show (0 : ℚ) <
      (if cfg.PKT_TYPE_PMF.get idx = "text" then u
        else if cfg.PKT_TYPE_PMF.get idx = "image" then ln else max 0.001 nv)
    by_cases ht : cfg.PKT_TYPE_PMF.get idx = "text"
    · rw [if_pos ht]
      exact lt_of_lt_of_le hpos1 hu1
    · rw [if_neg ht]
      by_cases hi : cfg.PKT_TYPE_PMF.get idx = "image"
      · rw [if_pos hi]
        exact hln
      · rw [if_neg hi]
        exact lt_of_lt_of_le hpos2 (le_max_left _ _)
  · intro ht
    have ht' : cfg.PKT_TYPE_PMF.get idx = "text" := ht
    show (0.05 : ℚ) ≤
        (if cfg.PKT_TYPE_PMF.get idx = "text" then u
          else if cfg.PKT_TYPE_PMF.get idx = "image" then ln else max 0.001 nv)
      ∧ (if cfg.PKT_TYPE_PMF.get idx = "text" then u
          else if cfg.PKT_TYPE_PMF.get idx = "image" then ln else max 0.001 nv) ≤ (0.20 : ℚ)
    rw [if_pos ht']
    exact ⟨hu1, hu2⟩
  · intro hv
    have hv' : cfg.PKT_TYPE_PMF.get idx = "video" := hv
    have ht : ¬ (cfg.PKT_TYPE_PMF.get idx = "text") := by rw [hv']; decide
    have hi : ¬ (cfg.PKT_TYPE_PMF.get idx = "image") := by rw [hv']; decide
    show (if cfg.PKT_TYPE_PMF.get idx = "text" then u
          else if cfg.PKT_TYPE_PMF.get idx = "image" then ln else max 0.001 nv)
        = max (0.001 : ℚ) nv
      ∧ (0.001 : ℚ) ≤
        (if cfg.PKT_TYPE_PMF.get idx = "text" then u
          else if cfg.PKT_TYPE_PMF.get idx = "image" then ln else max 0.001 nv)
    rw [if_neg ht, if_neg hi]
    exact ⟨rfl, le_max_left _ _⟩

/-- Witness for C6: drawing the `text` label of `cfg0` with
`u = 0.1`, `ln = 1`, `nv = 6` satisfies the contract, and the call
concretely returns `("text", 0.1, 2)`. -/
theorem sample_packet_attributes_contract_witness :
    ((sample_packet_attributes cfg0 cfg0_idx (1/10) 1 6).1 ∈ cfg0.PKT_TYPE_PMF
      ∧ 0 < (sample_packet_attributes cfg0 cfg0_idx (1/10) 1 6).2.1
      ∧ (sample_packet_attributes cfg0 cfg0_idx (1/10) 1 6).2.2
          = cfg0.PRIORITY_MAP (sample_packet_attributes cfg0 cfg0_idx (1/10) 1 6).1)
    ∧ sample_packet_attributes cfg0 cfg0_idx (1/10) 1 6 = ("text", 1/10, 2) := by
  have h := sample_packet_attributes_contract cfg0 cfg0_idx (1/10) 1 6
    (by norm_num) (by norm_num) one_pos
  exact ⟨⟨h.1, h.2.1, h.2.2.2.2⟩, rfl⟩

/-- Helper: once the carried flag is `1` and every remaining index keeps the
condition `n - i ≤ 5` true, every remaining node is flagged `1`. -/
theorem nodeStep_foldl_all_drone (n : ℕ) (l : List ℕ) (acc : List ℕ) (flag : ℕ)
    (hall : ∀ j ∈ l, n - j ≤ 5) :
    (l.foldl (nodeStep n) (acc, flag)).1 = acc ++ l.map (fun _ => 1) := by
  induction l generalizing acc flag with
  | nil => simp
  | cons i rest ih =>
      have hi : n - i ≤ 5 := hall i (List.mem_cons_self _ _)
      have hstep : nodeStep n (acc, flag) i = (acc ++ [1], 1) := by
        simp [nodeStep, hi]
      rw [List.foldl_cons, hstep,
        ih (acc ++ [1]) 1 (fun j hj => hall j (List.mem_cons_of_mem _ hj))]
      simp

/-- Helper: over an ascending index list starting from flag `0`, the loop
flags each index `i` with `1` exactly when `n - i ≤ 5` (the flag is
sticky, but the condition is monotone along the loop). -/
theorem nodeStep_foldl_sorted (n : ℕ) (l : List ℕ) (acc : List ℕ)
    (hsort : l.Pairwise (· ≤ ·)) :
    (l.foldl (nodeStep n) (acc, 0)).1
      = acc ++ l.map (fun i => if n - i ≤ 5 then 1 else 0) := by
  induction l generalizing acc with
  | nil => simp
  | cons i rest ih =>
      rcases List.pairwise_cons.mp hsort with ⟨hle, hrest⟩
      by_cases hi : n - i ≤ 5
      · have hall : ∀ j ∈ rest, n - j ≤ 5 := fun j hj =>
          le_trans (Nat.sub_le_sub_left (hle j hj) n) hi
        have hstep : nodeStep n (acc, 0) i = (acc ++ [1], 1) := by
          simp [nodeStep, hi]
        have hmap : rest.map (fun j => if n - j ≤ 5 then 1 else 0)
            = rest.map (fun _ => 1) :=
          List.map_congr_left (fun j hj => by rw [if_pos (hall j hj)])
        rw [List.foldl_cons, hstep,
          nodeStep_foldl_all_drone n rest (acc ++ [1]) 1 hall,
          List.map_cons, if_pos hi, hmap]
        simp
      · have hstep : nodeStep n (acc, 0) i = (acc ++ [0], 0) := by
          simp [nodeStep, hi]
        rw [List.foldl_cons, hstep, ih (acc ++ [0]) hrest,
          List.map_cons, if_neg hi]
        simp

/-- The loop's flag list in closed form. -/
theorem sensor_drone_flags_eq (n : ℕ) :
    sensor_drone_flags n
      = (List.range n).map (fun i => if n - i ≤ 5 then 1 else 0) := by
  unfold sensor_drone_flags buildNodes
  simpa using nodeStep_foldl_sorted n (List.range n) [] (List.pairwise_le_range n)

/-- C7: the construction loop tags node `i` as a mobile relay (flag `1`)
exactly when `i` is among the last `min(5, n)` created indices
(`n - 5 ≤ i`), and all earlier indices as fixed sensors (flag `0`);
in particular for `n = 7` indices 2–6 are drones and 0–1 sensors, and
for `n = 3` all three are drones. -/
theorem node_role_assignment (n : ℕ) :
    (sensor_drone_flags n).length = n
    ∧ (∀ i (h : i < (sensor_drone_flags n).length),
        (sensor_drone_flags n).get ⟨i, h⟩ = if n - 5 ≤ i then 1 else 0)
    ∧ (sensor_drone_flags n).count 1 = min 5 n
    ∧ sensor_drone_flags 7 = [0, 0, 1, 1, 1, 1, 1]
    ∧ sensor_drone_flags 3 = [1, 1, 1] := by
  refine ⟨?_, ?_, ?_, by rfl, by rfl⟩
  · rw [sensor_drone_flags_eq]
    simp
  · intro i h
    simp only [List.get_eq_getElem, sensor_drone_flags_eq, List.getElem_map,
      List.getElem_range]
    by_cases hc : n - i ≤ 5
    · rw [if_pos hc, if_pos (by omega)]
    · rw [if_neg hc, if_neg (by omega)]
  · rw [sensor_drone_flags_eq]
    by_cases h5 : 5 ≤ n
    · obtain ⟨m, rfl⟩ : ∃ m, n = m + 5 := ⟨n - 5, by omega⟩
      rw [List.range_add, List.map_append, List.count_append, List.map_map]
      have h1 : (List.range m).map (fun i => if m + 5 - i ≤ 5 then 1 else 0)
          = (List.range m).map (fun _ => 0) :=
        List.map_congr_left (fun i hi => by
          have : i < m := List.mem_range.mp hi
          rw [if_neg (by omega)])
      have h2 : (List.range 5).map ((fun i => if m + 5 - i ≤ 5 then 1 else 0) ∘ (m + ·))
          = (List.range 5).map (fun _ => 1) :=
        List.map_congr_left (fun j hj => by
          have : j < 5 := List.mem_range.mp hj
          simp only [Function.comp]
          rw [if_pos (by omega)])
      rw [h1, h2]
      simp [List.count_replicate]
    · have h1 : (List.range n).map (fun i => if n - i ≤ 5 then 1 else 0)
          = (List.range n).map (fun _ => 1) :=
        List.map_congr_left (fun i hi => by
          have : i < n := List.mem_range.mp hi
          rw [if_pos (by omega)])
      rw [h1]
      simp
      omega

/-- Witness for C7: at `n = 7`, index 0 is a sensor and index 2 a drone. -/
theorem node_role_assignment_witness :
    (sensor_drone_flags 7).length = 7
    ∧ (sensor_drone_flags 7).get ⟨0, by decide⟩ = 0
    ∧ (sensor_drone_flags 7).get ⟨2, by decide⟩ = 1 := by
  have h := node_role_assignment 7
  refine ⟨h.1, ?_, ?_⟩
  · have h0 := h.2.1 0 (by decide)
    rw [if_neg (by omega)] at h0
    exact h0
  · have h2 := h.2.1 2 (by decide)
    rw [if_pos (by omega)] at h2
    exact h2

/-- Helper: membership after a Python `set.add`. -/
theorem mem_insertSet {xs : List ℕ} {a x : ℕ} (h : x ∈ insertSet xs a) :
    x ∈ xs ∨ x = a := by
  unfold insertSet at h
  split_ifs at h
  · exact Or.inl h
  · rcases List.mem_append.mp h with h1 | h1
    · exact Or.inl h1
    · exact Or.inr (List.mem_singleton.mp h1)

/-- Helper: a Python `set.add` keeps the existing members. -/
theorem mem_insertSet_of_mem {xs : List ℕ} {a x : ℕ} (h : x ∈ xs) :
    x ∈ insertSet xs a := by
  unfold insertSet
  split_ifs
  · exact h
  · exact List.mem_append_left _ h

/-- Helper: `count` never touches the packet-id sets (it writes only the
three integer fields or the `_dynamic` dict). -/
theorem count_preserves_sets (m : Metrics) (key : String) (delta : ℤ)
    (m' : Metrics) (v : ℤ) (h : Metrics.count m key delta = Except.ok (m', v)) :
    m'.datapacket_arrived = m.datapacket_arrived
    ∧ m'.datapacket_generated = m.datapacket_generated := by
  unfold Metrics.count at h
  cases hA : metricAttr? key with
  | some f =>
      rw [hA] at h
      cases hB : pyAddInt (f m) delta with
      | ok n =>
          simp only [hB, Except.ok.injEq, Prod.mk.injEq] at h
          rw [← h.1]
          unfold setattrIntM
          split_ifs <;> exact ⟨rfl, rfl⟩
      | error e =>
          simp [hB] at h
  | none =>
      rw [hA] at h
      simp only [Except.ok.injEq, Prod.mk.injEq] at h
      rw [← h.1]
      exact ⟨rfl, rfl⟩

/-- Helper: `print_metrics` never touches the packet-id sets. -/
theorem print_metrics_preserves_sets (m : Metrics) :
    (Metrics.print_metrics m).1.datapacket_arrived = m.datapacket_arrived
    ∧ (Metrics.print_metrics m).1.datapacket_generated = m.datapacket_generated := by
  unfold Metrics.print_metrics
  split_ifs <;> exact ⟨rfl, rfl⟩

/-- Helper: every engine operation preserves `delivered ⊆ generated`. -/
theorem applyOp_preserves_subset (m : Metrics) (op : Op)
    (h : ∀ x ∈ m.datapacket_arrived, x ∈ m.datapacket_generated) :
    ∀ x ∈ (applyOp m op).datapacket_arrived, x ∈ (applyOp m op).datapacket_generated := by
  cases op with
  | registerGenerated pid =>
      by_cases hp : pid ∈ m.datapacket_generated
      · simpa [applyOp, Metrics.register_generated, hp] using h
      · intro x hx
        simp only [applyOp, Metrics.register_generated, hp, if_neg, if_false] at hx ⊢
        exact mem_insertSet_of_mem (h x hx)
  | registerArrived pid t hop thr =>
      by_cases hp : pid ∈ m.datapacket_generated
      · intro x hx
        simp only [applyOp, Metrics.register_arrived, hp, if_pos] at hx ⊢
        rcases mem_insertSet hx with h1 | h1
        · exact h x h1
        · exact h1 ▸ hp
      · simpa [applyOp, Metrics.register_arrived, hp] using h
  | recordControlPacket n => simpa [applyOp, Metrics.record_control_packet] using h
  | recordCollision n => simpa [applyOp, Metrics.record_collision] using h
  | recordMacDelay v => simpa [applyOp, Metrics.record_mac_delay] using h
  | recordPacketStat ty sz pr => simpa [applyOp, Metrics.record_packet_stat] using h
  | recordUavCapacity r => simpa [applyOp, Metrics.record_uav_capacity] using h
  | recordQueueLength node t len => simpa [applyOp, Metrics.record_queue_length] using h
  | recordDelay pr d => simpa [applyOp, Metrics.record_delay] using h
  | countOp key delta =>
      intro x hx
      rcases hc : Metrics.count m key delta with e | mv
      · simp only [applyOp, hc] at hx ⊢
        exact h x hx
      · obtain ⟨m', v⟩ := mv
        obtain ⟨ha, hg⟩ := count_preserves_sets m key delta m' v hc
        simp only [applyOp, hc, ha, hg] at hx ⊢
        exact h x hx
  | printMetricsOp =>
      intro x hx
      obtain ⟨ha, hg⟩ := print_metrics_preserves_sets m
      simp only [applyOp, ha, hg] at hx ⊢
      exact h x hx

/-- C4: in every state reachable from a fresh engine by any sequence of
engine operations, the delivered set is a subset of the generated set;
and recording an arrival for an unknown packet id signals
`UnknownPacketError` and leaves the state unchanged (a no-op). -/
theorem delivered_subset_generated (ops : List Op) (m : Metrics) (pid : ℕ)
    (t hop thr : ℚ) :
    (∀ x ∈ (runOps ops).datapacket_arrived, x ∈ (runOps ops).datapacket_generated)
    ∧ (pid ∉ m.datapacket_generated →
        Metrics.register_arrived m pid t hop thr
          = (m, some MetricsError.unknownPacket)) := by
  constructor
  · have hgen : ∀ (l : List Op) (m0 : Metrics),
        (∀ x ∈ m0.datapacket_arrived, x ∈ m0.datapacket_generated) →
        ∀ x ∈ (l.foldl applyOp m0).datapacket_arrived,
          x ∈ (l.foldl applyOp m0).datapacket_generated := by
      intro l
      induction l with
      | nil => intro m0 h; exact h
      | cons op rest ih =>
          intro m0 h
          exact ih (applyOp m0 op) (applyOp_preserves_subset m0 op h)
    exact hgen ops Metrics.init (by intro x hx; simp [Metrics.init] at hx)
  · intro hp
    simp [Metrics.register_arrived, hp]

/-- Witness for C4: a run that generates packet 1, delivers packet 1 and
then reports a spurious arrival for packet 9 keeps `delivered ⊆ generated`,
and the spurious arrival on the fresh state is an explicit no-op. -/
theorem delivered_subset_generated_witness :
    (∀ x ∈ (runOps [Op.registerGenerated 1, Op.registerArrived 1 5 2 3,
        Op.registerArrived 9 1 1 1]).datapacket_arrived,
      x ∈ (runOps [Op.registerGenerated 1, Op.registerArrived 1 5 2 3,
        Op.registerArrived 9 1 1 1]).datapacket_generated)
    ∧ Metrics.register_arrived Metrics.init 9 1 1 1
        = (Metrics.init, some MetricsError.unknownPacket) := by
  have h := delivered_subset_generated
    [Op.registerGenerated 1, Op.registerArrived 1 5 2 3, Op.registerArrived 9 1 1 1]
    Metrics.init 9 1 1 1
  exact ⟨h.1, h.2 (by decide)⟩

/-- C8 (amended): when the chart flag is off, `plot_basic_stats` performs
no filesystem effect at all; when the flag is on, the `results`
directory is always created — even when every source dataset is
empty — and each of the four image artifacts is written exactly when
its own dataset is non-empty. -/
theorem plot_basic_stats_effects (m : Metrics) :
    Metrics.plot_basic_stats false m = []
    ∧ FsEffect.mkdir "results" ∈ Metrics.plot_basic_stats true m
    ∧ (FsEffect.savefig "results/packet_size_hist.png" ∈ Metrics.plot_basic_stats true m
        ↔ m.packet_sizes ≠ [])
    ∧ (FsEffect.savefig "results/packet_type_bar.png" ∈ Metrics.plot_basic_stats true m
        ↔ m.packet_type_counts ≠ [])
    ∧ (FsEffect.savefig "results/packet_priority_bar.png" ∈ Metrics.plot_basic_stats true m
        ↔ m.packet_priority_counts ≠ [])
    ∧ (FsEffect.savefig "results/uav_capacity_hist.png" ∈ Metrics.plot_basic_stats true m
        ↔ m.uav_capacities ≠ []) := by
  unfold Metrics.plot_basic_stats
  refine ⟨rfl, ?_, ?_, ?_, ?_, ?_⟩ <;>
    split_ifs <;>
      simp_all [List.isEmpty_iff]

/-- Counterexample for C8: with the flag on and every source dataset
empty (the fresh state has no packet sampled), the effect trace is not
empty — the `results` directory is still created — contradicting
"skipped entirely (no directory created, no files written) … when a
source dataset is empty". -/
theorem plot_basic_stats_counterexample :
    Metrics.init.packet_sizes = []
    ∧ Metrics.plot_basic_stats true Metrics.init = [FsEffect.mkdir "results"]
    ∧ Metrics.plot_basic_stats true Metrics.init ≠ [] := by
  exact ⟨rfl, rfl, by decide⟩

/-- Witness for C8: the flag-off call does nothing on the fresh state;
flag-on creates the directory; after one `record_packet_stat` the
packet-size histogram is written. -/
theorem plot_basic_stats_effects_witness :
    Metrics.plot_basic_stats false Metrics.init = []
    ∧ FsEffect.mkdir "results" ∈ Metrics.plot_basic_stats true Metrics.init
    ∧ FsEffect.savefig "results/packet_size_hist.png"
        ∈ Metrics.plot_basic_stats true (Metrics.record_packet_stat Metrics.init "text" 1 2) := by
  have h1 := plot_basic_stats_effects Metrics.init
  have h2 := plot_basic_stats_effects (Metrics.record_packet_stat Metrics.init "text" 1 2)
  refine ⟨h1.1, h1.2.1, h2.2.2.1.mpr ?_⟩
  simp [Metrics.record_packet_stat, Metrics.init]

end FlyNet
